import Mathlib

/-!
Verification of the workflow execution core of the event-automation hub
(`agents/orchestrator/workflow_orchestrator.py`).

The Python code is shallowly embedded:
* Python dicts become association lists with Python's update-in-place /
  append-at-end semantics (`dget`, `dset`, `ddel`, `dictUpdate`);
  a stored empty string plays the role of a falsy value (`None` / `""`).
* `datetime` values become `Nat` timestamps; `isoformat` /
  `fromisoformat` become a verified decimal printer / parser pair, which
  matches the relevant property of the Python pair (a canonical textual
  form that parses back to an equal value).
* Collaborator agents (flyer, social media, WhatsApp, Google Drive) are
  an environment of call outcomes: either a returned dict (`Except.ok`)
  or a raised exception carrying its message (`Except.error`).
* The orchestrator's in-memory active map and the Redis store become two
  association lists inside an `Orch` record; logging and the backend
  notifier have no effect on the modelled state and are dropped.
-/

set_option autoImplicit false

namespace EventHub

/-! ### Python-dict model -/

/-- Lookup of the first binding of a key, as in a Python dict read. -/
def dget {V : Type} : List (String × V) → String → Option V
  | [], _ => none
  | (k1, v) :: rest, k => if k1 = k then some v else dget rest k

/-- Python `d[k] = v`: replace the binding in place if the key is
present, otherwise append the new binding at the end. -/
def dset {V : Type} : List (String × V) → String → V → List (String × V)
  | [], k, v => [(k, v)]
  | (k1, v1) :: rest, k, v =>
      if k1 = k then (k, v) :: rest else (k1, v1) :: dset rest k v

/-- Python `del d[k]`. -/
def ddel {V : Type} : List (String × V) → String → List (String × V)
  | [], _ => []
  | (k1, v1) :: rest, k =>
      if k1 = k then ddel rest k else (k1, v1) :: ddel rest k

/-- Python `d.update(g)`: write every binding of `g`, in order, into `d`. -/
def dictUpdate {V : Type} (d g : List (String × V)) : List (String × V) :=
  g.foldl (fun acc p => dset acc p.1 p.2) d

@[simp] theorem dget_dset_self {V : Type} (d : List (String × V)) (k : String) (v : V) :
    dget (dset d k v) k = some v := by
  induction d with
  | nil => simp [dget, dset]
  | cons p rest ih =>
      obtain ⟨k1, v1⟩ := p
      by_cases h : k1 = k <;> simp [dget, dset, h, ih]

theorem dget_dset_ne {V : Type} (d : List (String × V)) {k k' : String} (v : V)
    (h : k ≠ k') : dget (dset d k v) k' = dget d k' := by
  induction d with
  | nil => simp [dget, dset, h]
  | cons p rest ih =>
      obtain ⟨k1, v1⟩ := p
      by_cases h1 : k1 = k
      · subst h1
        simp [dget, dset, h]
      · simp only [dset, if_neg h1, dget, ih]

@[simp] theorem dget_ddel_self {V : Type} (d : List (String × V)) (k : String) :
    dget (ddel d k) k = none := by
  induction d with
  | nil => simp [dget, ddel]
  | cons p rest ih =>
      obtain ⟨k1, v1⟩ := p
      by_cases h : k1 = k <;> simp [dget, ddel, h, ih]

theorem dget_ddel_ne {V : Type} (d : List (String × V)) {k k' : String}
    (h : k ≠ k') : dget (ddel d k) k' = dget d k' := by
  induction d with
  | nil => simp [dget, ddel]
  | cons p rest ih =>
      obtain ⟨k1, v1⟩ := p
      by_cases h1 : k1 = k
      · subst h1
        simp [dget, ddel, h, ih]
      · simp only [ddel, if_neg h1, dget, ih]

theorem dget_dictUpdate_of_not_mem {V : Type} (g d : List (String × V)) {k : String}
    (h : dget g k = none) : dget (dictUpdate d g) k = dget d k := by
  induction g generalizing d with
  | nil => simp [dictUpdate]
  | cons p rest ih =>
      obtain ⟨k1, v1⟩ := p
      simp only [dget] at h
      by_cases h1 : k1 = k
      · simp [h1] at h
      · simp only [if_neg h1] at h
        simp only [dictUpdate, List.foldl_cons] at *
        rw [ih _ h, dget_dset_ne _ _ h1]

theorem dget_eq_none_of_not_mem_keys {V : Type} (g : List (String × V)) {k : String}
    (h : k ∉ g.map Prod.fst) : dget g k = none := by
  induction g with
  | nil => rfl
  | cons p rest ih =>
      obtain ⟨k1, v1⟩ := p
      simp only [List.map_cons, List.mem_cons] at h
      push_neg at h
      have hne : ¬ k1 = k := fun hc => h.1 hc.symm
      simp only [dget, if_neg hne]
      exact ih h.2

theorem dget_dictUpdate_of_mem {V : Type} (g : List (String × V)) :
    ∀ (d : List (String × V)) (k : String) (v : V), (g.map Prod.fst).Nodup →
      dget g k = some v → dget (dictUpdate d g) k = some v := by
  induction g with
  | nil =>
      intro d k v _ h
      simp [dget] at h
  | cons p rest ih =>
      intro d k v hnd h
      obtain ⟨k1, v1⟩ := p
      simp only [List.map_cons, List.nodup_cons] at hnd
      simp only [dget] at h
      simp only [dictUpdate, List.foldl_cons]
      by_cases h1 : k1 = k
      · subst h1
        rw [if_pos rfl] at h
        have hrest : dget rest k1 = none := dget_eq_none_of_not_mem_keys rest hnd.1
        have hframe := dget_dictUpdate_of_not_mem rest (dset d k1 v1) hrest
        simp only [dictUpdate] at hframe
        rw [hframe, dget_dset_self]
        exact h
      · rw [if_neg h1] at h
        exact ih (dset d k1 v1) k v hnd.2 h

/-- Python truthiness of an optional string: `None` and `""` are falsy. -/
def truthy : Option String → Bool
  | none => false
  | some s => s ≠ ""

/-! ### Timestamps: `datetime.isoformat` / `datetime.fromisoformat`

A timestamp is a `Nat`; the canonical textual form is its decimal
rendering, and parsing it back recovers the timestamp, mirroring the
Python round trip `fromisoformat(t.isoformat()) == t`. -/

def digitChar (d : Nat) : Char := Char.ofNat (48 + d)

/-- Fuel-driven decimal rendering, most significant digit first. -/
def isoCharsCore (fuel n : Nat) : List Char :=
  match fuel with
  | 0 => []
  | fuel + 1 =>
      if n < 10 then [digitChar n]
      else isoCharsCore fuel (n / 10) ++ [digitChar (n % 10)]

def isoformat (t : Nat) : String := String.mk (isoCharsCore (t + 1) t)

def digitVal (c : Char) : Option Nat :=
  if 48 ≤ c.toNat ∧ c.toNat ≤ 57 then some (c.toNat - 48) else none

def parseDigitsAux : Nat → List Char → Option Nat
  | acc, [] => some acc
  | acc, c :: cs =>
      match digitVal c with
      | some d => parseDigitsAux (acc * 10 + d) cs
      | none => none

def fromisoformat (s : String) : Option Nat :=
  match s.data with
  | [] => none
  | c :: cs => parseDigitsAux 0 (c :: cs)

/-- Proof-side denotation of pushing the digits of `n` after `acc`. -/
def pushNat (acc n : Nat) : Nat :=
  if n < 10 then acc * 10 + n else pushNat acc (n / 10) * 10 + n % 10
decreasing_by exact Nat.div_lt_self (by omega) (by omega)

theorem digitVal_digitChar : ∀ d, d < 10 → digitVal (digitChar d) = some d := by decide

theorem parseDigitsAux_isoCharsCore (fuel : Nat) :
    ∀ n, n ≤ fuel → ∀ acc rest,
      parseDigitsAux acc (isoCharsCore (fuel + 1) n ++ rest) =
        parseDigitsAux (pushNat acc n) rest := by
  induction fuel with
  | zero =>
      intro n hn acc rest
      interval_cases n
      simp [isoCharsCore, parseDigitsAux, digitVal_digitChar 0 (by omega), pushNat]
  | succ fuel ih =>
      intro n hn acc rest
      by_cases h : n < 10
      · simp [isoCharsCore, h, parseDigitsAux, digitVal_digitChar n h, pushNat]
      · have hdiv : n / 10 ≤ fuel := by
          have hlt : n / 10 < n := Nat.div_lt_self (by omega) (by omega)
          omega
        rw [isoCharsCore, if_neg h, List.append_assoc, List.cons_append,
          List.nil_append, ih (n / 10) hdiv acc (digitChar (n % 10) :: rest)]
        have hm : n % 10 < 10 := Nat.mod_lt _ (by omega)
        simp only [parseDigitsAux, digitVal_digitChar _ hm]
        conv_rhs => rw [pushNat]
        rw [if_neg h]

theorem pushNat_zero (n : Nat) : pushNat 0 n = n := by
  induction n using Nat.strong_induction_on with
  | _ n ih =>
      rw [pushNat]
      by_cases h : n < 10
      · simp [h]
      · have hdiv : n / 10 < n := Nat.div_lt_self (by omega) (by omega)
        simp only [if_neg h, ih _ hdiv]
        omega

theorem isoCharsCore_ne_nil (fuel n : Nat) : isoCharsCore (fuel + 1) n ≠ [] := by
  rw [isoCharsCore]
  by_cases h : n < 10 <;> simp [h]

theorem fromisoformat_isoformat (t : Nat) : fromisoformat (isoformat t) = some t := by
  have hne := isoCharsCore_ne_nil t t
  rw [isoformat, fromisoformat]
  cases hcs : isoCharsCore (t + 1) t with
  | nil => exact absurd hcs hne
  | cons c cs =>
      have := parseDigitsAux_isoCharsCore t t le_rfl 0 []
      rw [hcs, List.append_nil] at this
      simp only [this, pushNat_zero]
      rfl

theorem isoformat_ne_empty (t : Nat) : isoformat t ≠ "" := by
  have hne := isoCharsCore_ne_nil t t
  rw [isoformat]
  intro h
  apply hne
  have : (String.mk (isoCharsCore (t + 1) t)).data = ("" : String).data := by rw [h]
  simpa using this

/-! ### `WorkflowStatus` and `WorkflowState`
(`workflow_orchestrator.py`, lines 35-93) -/

inductive WorkflowStatus where
  | pending
  | in_progress
  | waiting_approval
  | approved
  | completed
  | failed
  | cancelled
deriving DecidableEq, Repr

/-- The `.value` string of each enum member. -/
def WorkflowStatus.value : WorkflowStatus → String
  | .pending => "pending"
  | .in_progress => "in_progress"
  | .waiting_approval => "waiting_approval"
  | .approved => "approved"
  | .completed => "completed"
  | .failed => "failed"
  | .cancelled => "cancelled"

/-- `WorkflowStatus(s)`: look a member up by value; `none` models the
`ValueError` raised on an unknown string. -/
def WorkflowStatus.ofValue (s : String) : Option WorkflowStatus :=
  if s = "pending" then some .pending
  else if s = "in_progress" then some .in_progress
  else if s = "waiting_approval" then some .waiting_approval
  else if s = "approved" then some .approved
  else if s = "completed" then some .completed
  else if s = "failed" then some .failed
  else if s = "cancelled" then some .cancelled
  else none

theorem WorkflowStatus.ofValue_value (w : WorkflowStatus) :
    WorkflowStatus.ofValue w.value = some w := by
  cases w <;> rfl

/-- A Python dict of string-keyed values; a stored `""` stands for a
falsy value (`None` or the empty string). -/
abbrev Dict := List (String × String)

/-- The state object passed between workflow nodes. `messages` keeps
only the message contents (the `HumanMessage` / `AIMessage` texts). -/
structure WorkflowState where
  session_id : String
  event_id : String
  status : WorkflowStatus
  current_step : String
  completed_steps : List String
  failed_steps : List String
  event_data : Dict
  content_preferences : Dict
  user_info : Dict
  generated_content : Dict
  start_time : Nat
  estimated_completion : Option Nat
  error_message : Option String
  messages : List String
deriving DecidableEq, Repr

/-- The step names registered on the LangGraph workflow, in edge order
(`_build_workflow_graph`). -/
def registered_steps : List String :=
  ["validate_input", "create_flyer", "create_social_content",
   "create_whatsapp_message", "setup_google_drive", "create_calendar_event",
   "create_clickup_task", "finalize_workflow"]

/-- `calculate_progress`: `min(int((completed / 8) * 100), 100)`.  The
float product `(c / 8) * 100 = c * 12.5` is exact for these magnitudes,
so `int(...)` is the integer division `c * 100 / 8`. -/
def WorkflowState.calculate_progress (st : WorkflowState) : Nat :=
  min (st.completed_steps.length * 100 / 8) 100

/-- The dictionary produced by `WorkflowState.to_dict`. -/
structure StateRecord where
  session_id : String
  event_id : String
  status : String
  current_step : String
  completed_steps : List String
  failed_steps : List String
  event_data : Dict
  content_preferences : Dict
  user_info : Dict
  generated_content : Dict
  start_time : String
  estimated_completion : Option String
  error_message : Option String
  progress_percentage : Nat
deriving DecidableEq, Repr

/-- `WorkflowState.to_dict`. -/
def WorkflowState.to_dict (st : WorkflowState) : StateRecord :=
  { session_id := st.session_id
    event_id := st.event_id
    status := st.status.value
    current_step := st.current_step
    completed_steps := st.completed_steps
    failed_steps := st.failed_steps
    event_data := st.event_data
    content_preferences := st.content_preferences
    user_info := st.user_info
    generated_content := st.generated_content
    start_time := isoformat st.start_time
    estimated_completion := st.estimated_completion.map isoformat
    error_message := st.error_message
    progress_percentage := st.calculate_progress }

/-- The reconstruction performed by `_get_workflow_state` when a record
is loaded from Redis; any exception (unknown status value, unparsable
timestamp) makes the whole lookup return `None`, and messages are not
persisted (`messages=[]`). -/
def state_from_record (r : StateRecord) : Option WorkflowState := do
  let status ← WorkflowStatus.ofValue r.status
  let start ← fromisoformat r.start_time
  let est ←
    match r.estimated_completion with
    | none => some none
    | some s => if s = "" then some none else (fromisoformat s).map some
  some
    { session_id := r.session_id
      event_id := r.event_id
      status := status
      current_step := r.current_step
      completed_steps := r.completed_steps
      failed_steps := r.failed_steps
      event_data := r.event_data
      content_preferences := r.content_preferences
      user_info := r.user_info
      generated_content := r.generated_content
      start_time := start
      estimated_completion := est
      error_message := r.error_message
      messages := [] }

/-- Serialize-then-reload reproduces the state except for `messages`,
which are not persisted. -/
theorem state_from_record_to_dict (st : WorkflowState) :
    state_from_record st.to_dict = some { st with messages := [] } := by
  rw [state_from_record, WorkflowState.to_dict]
  simp only [WorkflowStatus.ofValue_value, fromisoformat_isoformat, Option.bind_eq_bind,
    Option.some_bind]
  cases hest : st.estimated_completion with
  | none => rfl
  | some t =>
      simp [isoformat_ne_empty t, fromisoformat_isoformat]

/-! ### Collaborator environment

Each agent call either returns a result dict (`Except.ok`) or raises an
exception whose message is carried by `Except.error`. -/

deriving instance DecidableEq for Except

structure Env where
  flyer_result : Except String Dict
  social_result : Except String Dict
  whatsapp_result : Except String Dict
  drive_result : Except String Dict
deriving DecidableEq, Repr

/-- `state.error_message + f"; {msg}" if state.error_message else msg`
(Python truthiness on the old message). -/
def appendError (old : Option String) (msg : String) : Option String :=
  if truthy old then some (old.getD "" ++ "; " ++ msg) else some msg

/-! ### Workflow step implementations
(`workflow_orchestrator.py`, lines 325-530).  Logging is dropped; each
`state.messages.append(...)` keeps the message content. -/

def required_event_fields : List String := ["title", "description", "start_date"]

/-- `_validate_input`: raises `ValueError` (modelled by `Except.error`
carrying the message and the mutated state) on missing event fields or
missing preferences; otherwise defaults `flyer_style` and succeeds. -/
def validate_input (st0 : WorkflowState) : Except (String × WorkflowState) WorkflowState :=
  let st := { st0 with current_step := "validate_input" }
  let missing := required_event_fields.filter (fun f => ¬ truthy (dget st.event_data f))
  if missing ≠ [] then
    let msg := "Missing required event data fields: " ++ String.intercalate ", " missing
    Except.error (msg, { st with failed_steps := st.failed_steps ++ ["validate_input"],
                                 error_message := some msg })
  else if st.content_preferences = [] then
    let msg := "Content preferences are missing or not a valid structure."
    Except.error (msg, { st with failed_steps := st.failed_steps ++ ["validate_input"],
                                 error_message := some msg })
  else
    let st :=
      if truthy (dget st.content_preferences "flyer_style") then st
      else { st with content_preferences := dset st.content_preferences "flyer_style" "professional" }
    Except.ok { st with
      messages := st.messages ++ ["Input validation completed successfully."],
      completed_steps := st.completed_steps ++ ["validate_input"] }

/-- `_create_flyer`. -/
def create_flyer (env : Env) (st0 : WorkflowState) : WorkflowState :=
  let st := { st0 with current_step := "create_flyer" }
  match env.flyer_result with
  | .ok r =>
      if truthy (dget r "error") then
        { st with
          generated_content := dset st.generated_content "flyer_error" ((dget r "error").getD ""),
          failed_steps := st.failed_steps ++ ["create_flyer"],
          messages := st.messages ++
            ["Flyer creation encountered an issue: " ++ (dget r "error").getD ""] }
      else
        { st with
          generated_content :=
            dset (dset (dset (dset (dset st.generated_content
              "flyer_url" ((dget r "flyer_url").getD ""))
              "flyer_render_id" ((dget r "flyer_render_id").getD ""))
              "flyer_template_id" ((dget r "flyer_template_id").getD ""))
              "flyer_format" ((dget r "flyer_format").getD ""))
              "design_notes" ((dget r "design_notes").getD ""),
          messages := st.messages ++ ["Flyer created: " ++ (dget r "flyer_url").getD ""],
          completed_steps := st.completed_steps ++ ["create_flyer"] }
  | .error e =>
      { st with
        failed_steps := st.failed_steps ++ ["create_flyer"],
        error_message :=
          if truthy st.error_message
          then some (st.error_message.getD "" ++ "; Flyer creation error: " ++ e)
          else some e }

/-- `_create_social_content`. -/
def create_social_content (env : Env) (st0 : WorkflowState) : WorkflowState :=
  let st := { st0 with current_step := "create_social_content" }
  if ¬ truthy (dget st.generated_content "flyer_url") then
    { st with
      failed_steps := st.failed_steps ++ ["create_social_content"],
      generated_content := dset st.generated_content "social_media_error"
        "Flyer URL missing, cannot generate social media captions.",
      messages := st.messages ++ ["Social media captions skipped: Flyer URL not available."] }
  else
    match env.social_result with
    | .ok r =>
        let st := { st with
          generated_content :=
            dset (dset (dset st.generated_content
              "instagram_caption" ((dget r "instagram_caption").getD ""))
              "linkedin_caption" ((dget r "linkedin_caption").getD ""))
              "twitter_caption" ((dget r "twitter_caption").getD "") }
        if truthy (dget r "social_media_error") then
          { st with
            generated_content := dset st.generated_content "social_media_error"
              ((dget r "social_media_error").getD ""),
            failed_steps := st.failed_steps ++ ["create_social_content"],
            messages := st.messages ++
              ["Social media caption generation encountered issues: " ++
                (dget r "social_media_error").getD ""] }
        else
          { st with
            messages := st.messages ++ ["Social media captions generated."],
            completed_steps := st.completed_steps ++ ["create_social_content"] }
    | .error e =>
        let error_msg := "Social media caption generation error: " ++ e
        { st with
          failed_steps := st.failed_steps ++ ["create_social_content"],
          generated_content := dset st.generated_content "social_media_error" error_msg,
          error_message := appendError st.error_message error_msg,
          messages := st.messages ++ [error_msg] }

/-- `_create_whatsapp_message`. -/
def create_whatsapp_message (env : Env) (st0 : WorkflowState) : WorkflowState :=
  let st := { st0 with current_step := "create_whatsapp_message" }
  match env.whatsapp_result with
  | .ok r =>
      if truthy (dget r "error") then
        { st with
          generated_content := dset st.generated_content "whatsapp_message_error"
            ((dget r "error").getD ""),
          failed_steps := st.failed_steps ++ ["create_whatsapp_message"],
          messages := st.messages ++
            ["WhatsApp message creation encountered an issue: " ++ (dget r "error").getD ""] }
      else
        { st with
          generated_content := dset st.generated_content "whatsapp_message"
            ((dget r "whatsapp_message_text").getD ""),
          messages := st.messages ++ ["WhatsApp message generated."],
          completed_steps := st.completed_steps ++ ["create_whatsapp_message"] }
  | .error e =>
      let error_msg := "WhatsApp message creation error: " ++ e
      { st with
        failed_steps := st.failed_steps ++ ["create_whatsapp_message"],
        generated_content := dset st.generated_content "whatsapp_message_error" error_msg,
        error_message := appendError st.error_message error_msg,
        messages := st.messages ++ [error_msg] }

/-- `_setup_google_drive`: note that neither failure branch writes any
key into `generated_content`. -/
def setup_google_drive (env : Env) (st0 : WorkflowState) : WorkflowState :=
  let st := { st0 with current_step := "setup_google_drive" }
  match env.drive_result with
  | .ok r =>
      if truthy (dget r "error") then
        { st with
          failed_steps := st.failed_steps ++ ["setup_google_drive"],
          messages := st.messages ++
            ["Google Drive setup encountered an issue: " ++ (dget r "error").getD ""] }
      else
        { st with
          generated_content :=
            dset (dset st.generated_content
              "google_drive_folder_id" ((dget r "folder_id").getD ""))
              "google_drive_folder_url" ((dget r "folder_url").getD ""),
          completed_steps := st.completed_steps ++ ["setup_google_drive"],
          messages := st.messages ++ ["Google Drive folder and assets setup successfully."] }
  | .error e =>
      let error_msg := "Google Drive setup error: " ++ e
      { st with
        failed_steps := st.failed_steps ++ ["setup_google_drive"],
        error_message := appendError st.error_message error_msg,
        messages := st.messages ++ [error_msg] }

/-- `_create_calendar_event` (placeholder step). -/
def create_calendar_event (st : WorkflowState) : WorkflowState :=
  { st with current_step := "create_calendar_event",
            completed_steps := st.completed_steps ++ ["create_calendar_event"] }

/-- `_create_clickup_task` (placeholder step). -/
def create_clickup_task (st : WorkflowState) : WorkflowState :=
  { st with current_step := "create_clickup_task",
            completed_steps := st.completed_steps ++ ["create_clickup_task"] }

/-- `_finalize_workflow` (placeholder step). -/
def finalize_workflow (st : WorkflowState) : WorkflowState :=
  { st with current_step := "finalize_workflow",
            status := WorkflowStatus.completed,
            completed_steps := st.completed_steps ++ ["finalize_workflow"] }

/-! ### Orchestrator state and operations
(`workflow_orchestrator.py`, lines 99-685).  `active` models
`self.active_workflows`; `store` models the serialized records kept in
Redis under the per-run key. -/

structure Orch where
  active : List (String × WorkflowState)
  store : List (String × StateRecord)
deriving DecidableEq, Repr

/-- `_store_workflow_state`: serialize and write the per-run record. -/
def store_workflow_state (o : Orch) (st : WorkflowState) : Orch :=
  { o with store := dset o.store st.session_id st.to_dict }

/-- `_get_workflow_state`: memory first, then the store (deserializing
the record, which drops `messages`); `none` on a miss. -/
def get_workflow_state (o : Orch) (session_id : String) : Option WorkflowState :=
  match dget o.active session_id with
  | some st => some st
  | none =>
      match dget o.store session_id with
      | some r => state_from_record r
      | none => none

/-- The initial `WorkflowState` built by `start_workflow`; the workflow
is estimated to complete three minutes (180 seconds) after `now`. -/
def initial_state (session_id event_id : String)
    (event_data content_preferences user_info : Dict) (now : Nat) : WorkflowState :=
  { session_id := session_id
    event_id := event_id
    status := WorkflowStatus.in_progress
    current_step := "validate_input"
    completed_steps := []
    failed_steps := []
    event_data := event_data
    content_preferences := content_preferences
    user_info := user_info
    generated_content := []
    start_time := now
    estimated_completion := some (now + 180)
    error_message := none
    messages := ["Create promotional content for event: " ++
      ((dget event_data "title").getD "Untitled Event")] }

/-- `start_workflow`: create the state, register it in the active map,
persist it, and hand it back (execution is scheduled separately). -/
def start_workflow (o : Orch) (session_id event_id : String)
    (event_data content_preferences user_info : Dict) (now : Nat) :
    Orch × WorkflowState :=
  let st := initial_state session_id event_id event_data content_preferences user_info now
  let o := { o with active := dset o.active session_id st }
  (store_workflow_state o st, st)

/-- The compiled LangGraph pipeline: `validate_input` first (its
exception propagates), then the remaining steps in edge order. -/
def run_graph (env : Env) (st : WorkflowState) :
    Except (String × WorkflowState) WorkflowState :=
  match validate_input st with
  | .error e => .error e
  | .ok st =>
      .ok (finalize_workflow (create_clickup_task (create_calendar_event
        (setup_google_drive env (create_whatsapp_message env
          (create_social_content env (create_flyer env st)))))))

/-- `_execute_workflow`: on success set `Completed`/`"completed"`,
persist, re-register, notify; on a propagated exception set `Failed`,
record the message, persist, notify.  The `finally` block evicts the
run from the active map once its status is terminal. -/
def execute_workflow (env : Env) (o : Orch) (st : WorkflowState) : Orch × WorkflowState :=
  let (o, fin) :=
    match run_graph env st with
    | .ok fs =>
        let fs := { fs with status := WorkflowStatus.completed, current_step := "completed" }
        let o := store_workflow_state o fs
        ({ o with active := dset o.active fs.session_id fs }, fs)
    | .error (msg, st1) =>
        let fs := { st1 with status := WorkflowStatus.failed, error_message := some msg,
                             current_step := "error" }
        let o := store_workflow_state o fs
        -- the active map already aliases the in-place-mutated state object
        ({ o with active :=
            if (dget o.active fs.session_id).isSome
            then dset o.active fs.session_id fs else o.active }, fs)
  if (dget o.active fin.session_id).isSome ∧
      (fin.status = WorkflowStatus.completed ∨ fin.status = WorkflowStatus.failed) then
    ({ o with active := ddel o.active fin.session_id }, fin)
  else
    (o, fin)

/-- The keys a regeneration of the given type may rewrite, step by step. -/
def flyer_keys : List String :=
  ["flyer_url", "flyer_render_id", "flyer_template_id", "flyer_format",
   "design_notes", "flyer_error"]

def social_keys : List String :=
  ["instagram_caption", "linkedin_caption", "twitter_caption", "social_media_error"]

def whatsapp_keys : List String :=
  ["whatsapp_message", "whatsapp_message_error"]

def regen_owned_keys (t : String) : List String :=
  (if t = "flyer" ∨ t = "all" then flyer_keys else []) ++
  (if t = "social" ∨ t = "all" then social_keys else []) ++
  (if t = "whatsapp" ∨ t = "all" then whatsapp_keys else [])

/-- `regenerate_content`: load the run (`none` models the raised
`ValueError` when it does not exist), merge the preference overrides,
re-run the selected steps, mark `Completed` with the regeneration
marker, persist, and re-register in the active map. -/
def regenerate_content (env : Env) (o : Orch) (session_id _event_id : String)
    (regeneration_type : String) (content_preferences : Dict) :
    Orch × Option WorkflowState :=
  match get_workflow_state o session_id with
  | none => (o, none)
  | some st =>
      let st := { st with
        content_preferences := dictUpdate st.content_preferences content_preferences,
        status := WorkflowStatus.in_progress }
      let st :=
        if regeneration_type = "flyer" ∨ regeneration_type = "all"
        then create_flyer env st else st
      let st :=
        if regeneration_type = "social" ∨ regeneration_type = "all"
        then create_social_content env st else st
      let st :=
        if regeneration_type = "whatsapp" ∨ regeneration_type = "all"
        then create_whatsapp_message env st else st
      let st := { st with status := WorkflowStatus.completed,
                          current_step := "regenerated_" ++ regeneration_type }
      let o := store_workflow_state o st
      ({ o with active := dset o.active session_id st }, some st)

/-- `cancel_workflow`. -/
def cancel_workflow (o : Orch) (session_id : String) : Orch × Bool :=
  match get_workflow_state o session_id with
  | none => (o, false)
  | some st =>
      if st.status = WorkflowStatus.in_progress then
        let st := { st with status := WorkflowStatus.cancelled, current_step := "cancelled" }
        let o := store_workflow_state o st
        let o :=
          if (dget o.active session_id).isSome
          then { o with active := ddel o.active session_id } else o
        (o, true)
      else
        (o, false)

/-- `update_workflow_progress`: the webhook entry point.  A bad status
string raises before any mutation (caught, so the orchestrator is
unchanged); the list and string arguments are guarded by Python
truthiness, and `generated_content` is merged with `dict.update`. -/
def update_workflow_progress (o : Orch) (session_id status current_step : String)
    (completed_steps failed_steps : Option (List String))
    (error_message : Option String) (generated_content : Option Dict) : Orch :=
  match get_workflow_state o session_id with
  | none => o
  | some st =>
      match WorkflowStatus.ofValue status with
      | none => o
      | some ws =>
          let st := { st with
            status := ws
            current_step := current_step
            completed_steps :=
              match completed_steps with
              | some l => if l = [] then st.completed_steps else l
              | none => st.completed_steps
            failed_steps :=
              match failed_steps with
              | some l => if l = [] then st.failed_steps else l
              | none => st.failed_steps
            error_message :=
              match error_message with
              | some m => if m = "" then st.error_message else some m
              | none => st.error_message
            generated_content :=
              match generated_content with
              | some g => if g = [] then st.generated_content
                          else dictUpdate st.generated_content g
              | none => st.generated_content }
          let o := store_workflow_state o st
          { o with active := dset o.active session_id st }

/-! ### Helper lemmas about the steps -/

theorem validate_input_error_shape (st : WorkflowState) (m : String) (st1 : WorkflowState)
    (h : validate_input st = Except.error (m, st1)) :
    st1 = { st with current_step := "validate_input",
                    failed_steps := st.failed_steps ++ ["validate_input"],
                    error_message := some m } := by
  rw [validate_input] at h
  split at h
  · rw [Except.error.injEq, Prod.mk.injEq] at h
    rw [← h.1, ← h.2]
  · split at h
    · rw [Except.error.injEq, Prod.mk.injEq] at h
      rw [← h.1, ← h.2]
    · split at h <;> cases h

theorem calculate_progress_mono {st1 st2 : WorkflowState}
    (h : st1.completed_steps.length ≤ st2.completed_steps.length) :
    st1.calculate_progress ≤ st2.calculate_progress := by
  unfold WorkflowState.calculate_progress
  exact min_le_min (Nat.div_le_div_right (Nat.mul_le_mul_right _ h)) le_rfl

theorem create_flyer_frame (env : Env) (st : WorkflowState) :
    (create_flyer env st).session_id = st.session_id ∧
    st.completed_steps.length ≤ (create_flyer env st).completed_steps.length ∧
    ∀ k, k ∉ flyer_keys →
      dget (create_flyer env st).generated_content k = dget st.generated_content k := by
  refine ⟨?_, ?_, ?_⟩
  · cases hres : env.flyer_result with
    | error e => simp [create_flyer, hres]
    | ok r =>
        by_cases h : truthy (dget r "error") = true
        · simp [create_flyer, hres, h]
        · simp [create_flyer, hres, h]
  · cases hres : env.flyer_result with
    | error e => simp [create_flyer, hres]
    | ok r =>
        by_cases h : truthy (dget r "error") = true
        · simp [create_flyer, hres, h]
        · simp [create_flyer, hres, h]
  · intro k hk
    simp only [flyer_keys, List.mem_cons, List.mem_singleton] at hk
    push_neg at hk
    obtain ⟨h1, h2, h3, h4, h5, h6, -⟩ := hk
    cases hres : env.flyer_result with
    | error e => simp [create_flyer, hres]
    | ok r =>
        by_cases h : truthy (dget r "error") = true
        · simp only [create_flyer, hres, h, if_true]
          exact dget_dset_ne _ _ (Ne.symm h6)
        · simp only [create_flyer, hres, h, if_false, Bool.false_eq_true, ite_false]
          rw [dget_dset_ne _ _ (Ne.symm h5), dget_dset_ne _ _ (Ne.symm h4),
            dget_dset_ne _ _ (Ne.symm h3), dget_dset_ne _ _ (Ne.symm h2),
            dget_dset_ne _ _ (Ne.symm h1)]

theorem create_social_content_frame (env : Env) (st : WorkflowState) :
    (create_social_content env st).session_id = st.session_id ∧
    st.completed_steps.length ≤ (create_social_content env st).completed_steps.length ∧
    ∀ k, k ∉ social_keys →
      dget (create_social_content env st).generated_content k = dget st.generated_content k := by
  refine ⟨?_, ?_, ?_⟩
  · by_cases hurl : truthy (dget st.generated_content "flyer_url") = true
    · cases hres : env.social_result with
      | error e => simp [create_social_content, hurl, hres]
      | ok r =>
          by_cases h : truthy (dget r "social_media_error") = true
          · simp [create_social_content, hurl, hres, h]
          · simp [create_social_content, hurl, hres, h]
    · simp [create_social_content, hurl]
  · by_cases hurl : truthy (dget st.generated_content "flyer_url") = true
    · cases hres : env.social_result with
      | error e => simp [create_social_content, hurl, hres]
      | ok r =>
          by_cases h : truthy (dget r "social_media_error") = true
          · simp [create_social_content, hurl, hres, h]
          · simp [create_social_content, hurl, hres, h]
    · simp [create_social_content, hurl]
  · intro k hk
    simp only [social_keys, List.mem_cons, List.mem_singleton] at hk
    push_neg at hk
    obtain ⟨h1, h2, h3, h4, -⟩ := hk
    by_cases hurl : truthy (dget st.generated_content "flyer_url") = true
    · cases hres : env.social_result with
      | error e =>
          simp [create_social_content, hurl, hres, dget_dset_ne,
            Ne.symm h1, Ne.symm h2, Ne.symm h3, Ne.symm h4]
      | ok r =>
          by_cases h : truthy (dget r "social_media_error") = true
          · simp [create_social_content, hurl, hres, h, dget_dset_ne,
              Ne.symm h1, Ne.symm h2, Ne.symm h3, Ne.symm h4]
          · simp [create_social_content, hurl, hres, h, dget_dset_ne,
              Ne.symm h1, Ne.symm h2, Ne.symm h3, Ne.symm h4]
    · simp [create_social_content, hurl, dget_dset_ne,
        Ne.symm h1, Ne.symm h2, Ne.symm h3, Ne.symm h4]

theorem create_whatsapp_message_frame (env : Env) (st : WorkflowState) :
    (create_whatsapp_message env st).session_id = st.session_id ∧
    st.completed_steps.length ≤ (create_whatsapp_message env st).completed_steps.length ∧
    ∀ k, k ∉ whatsapp_keys →
      dget (create_whatsapp_message env st).generated_content k = dget st.generated_content k := by
  refine ⟨?_, ?_, ?_⟩
  · cases hres : env.whatsapp_result with
    | error e => simp [create_whatsapp_message, hres]
    | ok r =>
        by_cases h : truthy (dget r "error") = true
        · simp [create_whatsapp_message, hres, h]
        · simp [create_whatsapp_message, hres, h]
  · cases hres : env.whatsapp_result with
    | error e => simp [create_whatsapp_message, hres]
    | ok r =>
        by_cases h : truthy (dget r "error") = true
        · simp [create_whatsapp_message, hres, h]
        · simp [create_whatsapp_message, hres, h]
  · intro k hk
    simp only [whatsapp_keys, List.mem_cons, List.mem_singleton] at hk
    push_neg at hk
    obtain ⟨h1, h2, -⟩ := hk
    cases hres : env.whatsapp_result with
    | error e =>
        simp only [create_whatsapp_message, hres]
        exact dget_dset_ne _ _ (Ne.symm h2)
    | ok r =>
        by_cases h : truthy (dget r "error") = true
        · simp only [create_whatsapp_message, hres, h, if_true]
          exact dget_dset_ne _ _ (Ne.symm h2)
        · simp only [create_whatsapp_message, hres, h, Bool.false_eq_true, if_false,
            ite_false]
          exact dget_dset_ne _ _ (Ne.symm h1)

theorem setup_google_drive_frame (env : Env) (st : WorkflowState) :
    (setup_google_drive env st).session_id = st.session_id ∧
    st.completed_steps.length ≤ (setup_google_drive env st).completed_steps.length := by
  refine ⟨?_, ?_⟩
  · cases hres : env.drive_result with
    | error e => simp [setup_google_drive, hres]
    | ok r =>
        by_cases h : truthy (dget r "error") = true
        · simp [setup_google_drive, hres, h]
        · simp [setup_google_drive, hres, h]
  · cases hres : env.drive_result with
    | error e => simp [setup_google_drive, hres]
    | ok r =>
        by_cases h : truthy (dget r "error") = true
        · simp [setup_google_drive, hres, h]
        · simp [setup_google_drive, hres, h]

theorem validate_input_ok_shape (st st1 : WorkflowState) (h : validate_input st = Except.ok st1) :
    st1.session_id = st.session_id ∧ st1.generated_content = st.generated_content ∧
    st1.completed_steps = st.completed_steps ++ ["validate_input"] ∧
    st1.failed_steps = st.failed_steps := by
  rw [validate_input] at h
  split at h
  · cases h
  · split at h
    · cases h
    · split at h <;>
        (rw [Except.ok.injEq] at h; rw [← h]; exact ⟨rfl, rfl, rfl, rfl⟩)

/-- The tail of the pipeline after a successful validation. -/
def pipeline_rest (env : Env) (st : WorkflowState) : WorkflowState :=
  finalize_workflow (create_clickup_task (create_calendar_event
    (setup_google_drive env (create_whatsapp_message env
      (create_social_content env (create_flyer env st))))))

theorem run_graph_eq_ok (env : Env) (st st1 : WorkflowState)
    (h : validate_input st = Except.ok st1) :
    run_graph env st = Except.ok (pipeline_rest env st1) := by
  rw [run_graph, h, pipeline_rest]

theorem run_graph_eq_error (env : Env) (st : WorkflowState) (e : String × WorkflowState)
    (h : validate_input st = Except.error e) :
    run_graph env st = Except.error e := by
  rw [run_graph, h]

theorem pipeline_rest_session (env : Env) (st : WorkflowState) :
    (pipeline_rest env st).session_id = st.session_id := by
  show (setup_google_drive env (create_whatsapp_message env
    (create_social_content env (create_flyer env st)))).session_id = st.session_id
  rw [(setup_google_drive_frame env _).1, (create_whatsapp_message_frame env _).1,
    (create_social_content_frame env _).1, (create_flyer_frame env _).1]

theorem pipeline_rest_completed_le (env : Env) (st : WorkflowState) :
    st.completed_steps.length ≤ (pipeline_rest env st).completed_steps.length := by
  have h1 := (create_flyer_frame env st).2.1
  have h2 := (create_social_content_frame env (create_flyer env st)).2.1
  have h3 := (create_whatsapp_message_frame env
    (create_social_content env (create_flyer env st))).2.1
  have h4 := (setup_google_drive_frame env (create_whatsapp_message env
    (create_social_content env (create_flyer env st)))).2
  have h5 : (pipeline_rest env st).completed_steps =
      ((setup_google_drive env (create_whatsapp_message env
        (create_social_content env (create_flyer env st)))).completed_steps ++
        ["create_calendar_event"] ++ ["create_clickup_task"] ++ ["finalize_workflow"]) := by
    rfl
  rw [h5]
  simp only [List.length_append, List.length_cons, List.length_nil]
  omega

theorem run_graph_ok_session (env : Env) (st res : WorkflowState)
    (h : run_graph env st = Except.ok res) : res.session_id = st.session_id := by
  cases hv : validate_input st with
  | error e =>
      rw [run_graph_eq_error env st e hv] at h
      cases h
  | ok st1 =>
      rw [run_graph_eq_ok env st st1 hv, Except.ok.injEq] at h
      rw [← h, pipeline_rest_session, (validate_input_ok_shape st st1 hv).1]

theorem run_graph_error_session (env : Env) (st : WorkflowState) (m : String)
    (st1 : WorkflowState) (h : run_graph env st = Except.error (m, st1)) :
    st1.session_id = st.session_id := by
  cases hv : validate_input st with
  | error e =>
      rw [run_graph_eq_error env st e hv] at h
      rw [Except.error.injEq] at h
      rw [h] at hv
      rw [validate_input_error_shape st m st1 hv]
  | ok st2 =>
      rw [run_graph_eq_ok env st st2 hv] at h
      cases h

/-! ### Concrete fixtures used by witnesses and counterexamples -/

/-- A plain run-state used as the base of concrete examples. -/
def baseState : WorkflowState :=
  { session_id := "s1"
    event_id := "e1"
    status := WorkflowStatus.in_progress
    current_step := "validate_input"
    completed_steps := []
    failed_steps := []
    event_data := [("title", "Gala"), ("description", "d"), ("start_date", "2026-01-01")]
    content_preferences := [("flyer_style", "modern")]
    user_info := []
    generated_content := []
    start_time := 0
    estimated_completion := some 180
    error_message := none
    messages := [] }

/-! ### Claims -/

/-- C3: for every run-state the progress percentage equals
`min(100, floor(100 * |completed_steps| / N))` with `N` the number of
registered steps (8); it depends only on the length of
`completed_steps` (duplicates included) and never exceeds 100. -/
theorem claim_C3 (st : WorkflowState) :
    st.calculate_progress =
      min 100 (100 * st.completed_steps.length / registered_steps.length) ∧
    st.calculate_progress ≤ 100 ∧
    ∀ st2 : WorkflowState, st2.completed_steps.length = st.completed_steps.length →
      st2.calculate_progress = st.calculate_progress := by
  refine ⟨?_, ?_, ?_⟩
  · rw [WorkflowState.calculate_progress]
    have h8 : registered_steps.length = 8 := rfl
    rw [h8, Nat.min_comm, Nat.mul_comm]
  · exact min_le_right _ _
  · intro st2 h
    rw [WorkflowState.calculate_progress, WorkflowState.calculate_progress, h]

/-- C3 witness: the progress formula and length-only dependence at a
state with two completed steps (and another with duplicates). -/
theorem claim_C3_witness :
    ({ baseState with completed_steps := ["validate_input", "create_flyer"] }
        : WorkflowState).calculate_progress =
      min 100 (100 * 2 / registered_steps.length) ∧
    ({ baseState with completed_steps := ["create_flyer", "create_flyer"] }
        : WorkflowState).calculate_progress =
      ({ baseState with completed_steps := ["validate_input", "create_flyer"] }
        : WorkflowState).calculate_progress :=
  ⟨(claim_C3 _).1, (claim_C3 _).2.2 _ (by decide)⟩

/-- C10: `create_calendar_event`, `create_clickup_task` and
`finalize_workflow` unconditionally succeed: each sets `current_step`
to its own name and appends its name to `completed_steps`, leaving
`failed_steps`, `generated_content` and all other fields untouched
(`finalize_workflow` additionally sets the status to Completed), so
these steps never contribute a failure or an artifact. -/
theorem claim_C10 (st : WorkflowState) :
    create_calendar_event st =
      { st with current_step := "create_calendar_event",
                completed_steps := st.completed_steps ++ ["create_calendar_event"] } ∧
    create_clickup_task st =
      { st with current_step := "create_clickup_task",
                completed_steps := st.completed_steps ++ ["create_clickup_task"] } ∧
    finalize_workflow st =
      { st with current_step := "finalize_workflow",
                status := WorkflowStatus.completed,
                completed_steps := st.completed_steps ++ ["finalize_workflow"] } :=
  ⟨rfl, rfl, rfl⟩

/-- C4 counterexample: serialization drops the `messages` field
(`messages=[]  # Simplified - messages not persisted`), so a state with
a non-empty message list does not round-trip to an equal state. -/
theorem claim_C4_counterexample :
    state_from_record (WorkflowState.to_dict { baseState with messages := ["hello"] }) =
      some { baseState with messages := [] } ∧
    ({ baseState with messages := ["hello"] } : WorkflowState) ≠
      { baseState with messages := [] } := by
  constructor
  · exact state_from_record_to_dict { baseState with messages := ["hello"] }
  · decide

/-- C4 amended: `to_dict` followed by the store-load reconstruction
reproduces an equal `WorkflowState` in every field — including both
timestamps and the status enum — except `messages`, which always
deserializes to the empty list. -/
theorem claim_C4_amended (st : WorkflowState) :
    state_from_record st.to_dict = some { st with messages := [] } :=
  state_from_record_to_dict st

/-- C5: `cancel_workflow` returns true iff the run exists and its
current status is InProgress; in that case it persists the Cancelled
state with the `"cancelled"` sentinel step and removes the run from the
active set, and a second cancel of the same run returns false.  The
hypothesis `hsess` states that the orchestrator is well-keyed: a run
found under `sid` carries `sid` as its own session id (true of every
state the orchestrator itself builds). -/
theorem cancel_workflow_of_none (o : Orch) (sid : String)
    (hget : get_workflow_state o sid = none) : cancel_workflow o sid = (o, false) := by
  simp only [cancel_workflow, hget]

theorem cancel_workflow_of_not_in_progress (o : Orch) (sid : String) (st : WorkflowState)
    (hget : get_workflow_state o sid = some st)
    (hs : ¬ st.status = WorkflowStatus.in_progress) :
    cancel_workflow o sid = (o, false) := by
  simp only [cancel_workflow, hget, if_neg hs]

theorem cancel_workflow_of_in_progress (o : Orch) (sid : String) (st : WorkflowState)
    (hget : get_workflow_state o sid = some st) (hkey : st.session_id = sid)
    (hs : st.status = WorkflowStatus.in_progress) :
    cancel_workflow o sid =
      ({ active := if (dget o.active sid).isSome then ddel o.active sid else o.active,
         store := dset o.store sid (WorkflowState.to_dict
           { st with status := WorkflowStatus.cancelled, current_step := "cancelled" }) },
       true) := by
  simp only [cancel_workflow, hget, if_pos hs, store_workflow_state, hkey]
  by_cases hact : (dget o.active sid).isSome = true
  · rw [if_pos hact, if_pos hact]
  · rw [if_neg hact, if_neg hact]

/-- C5: `cancel_workflow` returns true iff the run exists and its
current status is InProgress; in that case it persists the Cancelled
state with the `"cancelled"` sentinel step and removes the run from the
active set, and a second cancel of the same run returns false.  The
hypothesis `hsess` states that the orchestrator is well-keyed: a run
found under `sid` carries `sid` as its own session id (true of every
state the orchestrator itself stores). -/
theorem claim_C5 (o : Orch) (sid : String)
    (hsess : ∀ st', get_workflow_state o sid = some st' → st'.session_id = sid) :
    ((cancel_workflow o sid).2 = true ↔
      (get_workflow_state o sid).map WorkflowState.status =
        some WorkflowStatus.in_progress) ∧
    ((cancel_workflow o sid).2 = true →
      dget (cancel_workflow o sid).1.active sid = none ∧
      (dget (cancel_workflow o sid).1.store sid).map
          (fun r => (r.status, r.current_step)) = some ("cancelled", "cancelled")) ∧
    (cancel_workflow (cancel_workflow o sid).1 sid).2 = false := by
  cases hget : get_workflow_state o sid with
  | none =>
      rw [cancel_workflow_of_none o sid hget]
      exact ⟨by simp, by simp, by rw [cancel_workflow_of_none o sid hget]⟩
  | some st =>
      by_cases hs : st.status = WorkflowStatus.in_progress
      · have hkey := hsess st hget
        have hspec := cancel_workflow_of_in_progress o sid st hget hkey hs
        have hactnone :
            dget (if (dget o.active sid).isSome then ddel o.active sid else o.active) sid =
              none := by
          by_cases hact : (dget o.active sid).isSome
          · rw [if_pos hact]
            exact dget_ddel_self _ _
          · rw [if_neg hact]
            exact Option.not_isSome_iff_eq_none.mp hact
        have hget2 : get_workflow_state (cancel_workflow o sid).1 sid =
            some { st with status := WorkflowStatus.cancelled,
                           current_step := "cancelled", messages := [] } := by
          rw [hspec]
          simp only [get_workflow_state, hactnone, dget_dset_self]
          exact state_from_record_to_dict _
        refine ⟨by rw [hspec]; simp [hs], fun _ => ⟨?_, ?_⟩, ?_⟩
        · rw [hspec]
          exact hactnone
        · rw [hspec]
          simp only [dget_dset_self, Option.map_some']
          rfl
        · rw [cancel_workflow_of_not_in_progress (cancel_workflow o sid).1 sid _ hget2
            (by simp)]
      · rw [cancel_workflow_of_not_in_progress o sid st hget hs]
        refine ⟨by simp [hs], by simp, ?_⟩
        rw [cancel_workflow_of_not_in_progress o sid st hget hs]

/-- C5 witness: cancelling a concrete InProgress run removes it from
the active set, and a second cancel returns false. -/
theorem claim_C5_witness :
    dget (cancel_workflow { active := [("s1", baseState)], store := [] } "s1").1.active "s1" =
      none ∧
    (cancel_workflow
      (cancel_workflow { active := [("s1", baseState)], store := [] } "s1").1 "s1").2 =
      false := by
  have h := claim_C5 { active := [("s1", baseState)], store := [] } "s1"
    (by intro st' hg
        rw [show get_workflow_state { active := [("s1", baseState)], store := [] } "s1" =
          some baseState from rfl, Option.some.injEq] at hg
        rw [← hg]
        rfl)
  exact ⟨(h.2.1 (by decide)).1, h.2.2⟩

/-- C8 counterexample: `update_workflow_progress` guards its list
arguments with Python truthiness (`if completed_steps:`), so supplying
the empty list does *not* overwrite the stored list, contradicting the
claim that provided lists are always written wholesale. -/
theorem claim_C8_counterexample :
    (dget (update_workflow_progress
        { active := [("s1", { baseState with completed_steps := ["validate_input"] })],
          store := [] }
        "s1" "in_progress" "create_flyer" (some []) none none none).active "s1").map
      WorkflowState.completed_steps = some ["validate_input"] ∧
    some ["validate_input"] ≠ some ([] : List String) := by
  exact ⟨rfl, by decide⟩

/-- C8 amended: for an existing run, `update_workflow_progress` merges
the supplied artifacts into the existing mapping — keys it does not
supply keep their old values, and every supplied key (the argument
being duplicate-free, as any Python dict is) receives its supplied
value — and overwrites `completed_steps` / `failed_steps` wholesale
exactly when a *non-empty* list is supplied; an absent argument or an
empty list leaves the stored list unchanged. -/
theorem claim_C8_amended (o : Orch) (sid status_str cs : String)
    (completed failed : Option (List String)) (err : Option String) (gc : Option Dict)
    (st st' : WorkflowState) (ws : WorkflowStatus)
    (hget : get_workflow_state o sid = some st)
    (hws : WorkflowStatus.ofValue status_str = some ws)
    (hst' : dget (update_workflow_progress o sid status_str cs
      completed failed err gc).active sid = some st') :
    (∀ k, dget (gc.getD []) k = none →
      dget st'.generated_content k = dget st.generated_content k) ∧
    (∀ k v, ((gc.getD []).map Prod.fst).Nodup → dget (gc.getD []) k = some v →
      dget st'.generated_content k = some v) ∧
    (∀ l, completed = some l → l ≠ [] → st'.completed_steps = l) ∧
    ((completed = none ∨ completed = some []) → st'.completed_steps = st.completed_steps) ∧
    (∀ l, failed = some l → l ≠ [] → st'.failed_steps = l) ∧
    ((failed = none ∨ failed = some []) → st'.failed_steps = st.failed_steps) := by
  simp only [update_workflow_progress, hget, hws, dget_dset_self,
    Option.some.injEq] at hst'
  rw [← hst']
  refine ⟨?_, ?_, ?_, ?_, ?_, ?_⟩
  · intro k hk
    cases gc with
    | none => rfl
    | some g =>
        simp only [Option.getD] at hk
        by_cases hg : g = []
        · simp only [hg, ite_true, if_pos]
        · simp only [if_neg hg]
          exact dget_dictUpdate_of_not_mem g _ hk
  · intro k v hnd hk
    cases gc with
    | none => simp [dget] at hk
    | some g =>
        simp only [Option.getD] at hnd hk
        by_cases hg : g = []
        · rw [hg] at hk
          simp [dget] at hk
        · simp only [if_neg hg]
          exact dget_dictUpdate_of_mem g _ k v hnd hk
  · intro l hl hne
    rw [hl]
    simp only [if_neg hne]
  · intro hcase
    cases hcase with
    | inl h => rw [h]
    | inr h => rw [h]; simp
  · intro l hl hne
    rw [hl]
    simp only [if_neg hne]
  · intro hcase
    cases hcase with
    | inl h => rw [h]
    | inr h => rw [h]; simp

/-- Fixtures for the C8 witness: a stored run with one artifact and a
non-trivial update. -/
def stW8 : WorkflowState :=
  { baseState with generated_content := [("flyer_url", "u")],
                   completed_steps := ["validate_input"],
                   failed_steps := ["create_flyer"] }

def stW8after : WorkflowState :=
  { baseState with status := WorkflowStatus.completed,
                   current_step := "done",
                   completed_steps := ["a", "b"],
                   failed_steps := ["create_flyer"],
                   generated_content := [("flyer_url", "u"), ("x", "y")] }

/-- C8 witness: the amended statement at a concrete update — the old
artifact survives the merge, the supplied key receives its supplied
value, the non-empty completed list overwrites, and the absent failed
list is untouched. -/
theorem claim_C8_witness :
    dget stW8after.generated_content "flyer_url" = dget stW8.generated_content "flyer_url" ∧
    dget stW8after.generated_content "x" = some "y" ∧
    stW8after.completed_steps = ["a", "b"] ∧
    stW8after.failed_steps = stW8.failed_steps := by
  have h := claim_C8_amended { active := [("s1", stW8)], store := [] } "s1" "completed"
    "done" (some ["a", "b"]) none none (some [("x", "y")]) stW8 stW8after
    WorkflowStatus.completed rfl rfl rfl
  exact ⟨h.1 "flyer_url" rfl, h.2.1 "x" "y" (by decide) rfl, h.2.2.1 _ rfl (by decide),
    h.2.2.2.2.2 (Or.inl rfl)⟩

/-- Every `generated_content` key that a step after `validate_input`
can write. -/
def later_step_artifact_keys : List String :=
  ["flyer_url", "flyer_render_id", "flyer_template_id", "flyer_format", "design_notes",
   "flyer_error", "instagram_caption", "linkedin_caption", "twitter_caption",
   "social_media_error", "whatsapp_message", "whatsapp_message_error",
   "google_drive_folder_id", "google_drive_folder_url"]

/-- C1: if `validate_input` raises on a run started by
`start_workflow`, the run ends Failed with empty `completed_steps`,
`"validate_input"` recorded in `failed_steps`, `error_message` equal to
the exception message, and no later step's artifact key present. -/
theorem claim_C1 (env : Env) (o : Orch) (sid eid : String) (ed cp ui : Dict) (now : Nat)
    (m : String) (st1 fs : WorkflowState)
    (hval : validate_input (initial_state sid eid ed cp ui now) = Except.error (m, st1))
    (hfs : fs = (execute_workflow env (start_workflow o sid eid ed cp ui now).1
      (start_workflow o sid eid ed cp ui now).2).2) :
    fs.status = WorkflowStatus.failed ∧
    fs.completed_steps = [] ∧
    "validate_input" ∈ fs.failed_steps ∧
    fs.error_message = some m ∧
    ∀ k ∈ later_step_artifact_keys, dget fs.generated_content k = none := by
  have hrun := run_graph_eq_error env (initial_state sid eid ed cp ui now) (m, st1) hval
  have hshape := validate_input_error_shape _ m st1 hval
  have hfs2 : fs = { st1 with status := WorkflowStatus.failed, error_message := some m,
                              current_step := "error" } := by
    rw [hfs]
    show (execute_workflow env _ (initial_state sid eid ed cp ui now)).2 = _
    simp only [execute_workflow, hrun, apply_ite Prod.snd, ite_self]
  rw [hfs2, hshape]
  refine ⟨rfl, rfl, by simp, rfl, ?_⟩
  intro k _
  rfl

/-- The mutated state carried by the `ValueError` when the concrete C1
witness run (whose event data is empty) fails validation. -/
def stC1err : WorkflowState :=
  { initial_state "s1" "e1" [] [] [] 0 with
      current_step := "validate_input",
      failed_steps := ["validate_input"],
      error_message :=
        some "Missing required event data fields: title, description, start_date" }

/-- C1 witness: a run started with empty event data fails validation
and ends Failed with `"validate_input"` in `failed_steps` and an empty
artifact mapping. -/
theorem claim_C1_witness :
    (execute_workflow ⟨Except.ok [], Except.ok [], Except.ok [], Except.ok []⟩
        (start_workflow { active := [], store := [] } "s1" "e1" [] [] [] 0).1
        (start_workflow { active := [], store := [] } "s1" "e1" [] [] [] 0).2).2.status =
      WorkflowStatus.failed ∧
    "validate_input" ∈
      (execute_workflow ⟨Except.ok [], Except.ok [], Except.ok [], Except.ok []⟩
        (start_workflow { active := [], store := [] } "s1" "e1" [] [] [] 0).1
        (start_workflow { active := [], store := [] } "s1" "e1" [] [] [] 0).2).2.failed_steps := by
  have h := claim_C1 ⟨Except.ok [], Except.ok [], Except.ok [], Except.ok []⟩
    { active := [], store := [] } "s1" "e1" [] [] [] 0
    "Missing required event data fields: title, description, start_date" stC1err
    (execute_workflow ⟨Except.ok [], Except.ok [], Except.ok [], Except.ok []⟩
      (start_workflow { active := [], store := [] } "s1" "e1" [] [] [] 0).1
      (start_workflow { active := [], store := [] } "s1" "e1" [] [] [] 0).2).2
    (by decide) rfl
  exact ⟨h.1, h.2.2.1⟩

theorem execute_workflow_ok_parts (env : Env) (o : Orch) (st fs : WorkflowState)
    (hrun : run_graph env st = Except.ok fs) :
    (execute_workflow env o st).2 =
      { fs with status := WorkflowStatus.completed, current_step := "completed" } ∧
    dget (execute_workflow env o st).1.active fs.session_id = none ∧
    dget (execute_workflow env o st).1.store fs.session_id =
      some (WorkflowState.to_dict
        { fs with status := WorkflowStatus.completed, current_step := "completed" }) := by
  have hcond : (dget (dset o.active fs.session_id
      ({ fs with status := WorkflowStatus.completed, current_step := "completed" }
        : WorkflowState)) fs.session_id).isSome = true := by
    rw [dget_dset_self]
    rfl
  simp only [execute_workflow, hrun, store_workflow_state]
  rw [if_pos ⟨hcond, Or.inl trivial⟩]
  exact ⟨rfl, dget_ddel_self _ _, dget_dset_self _ _ _⟩

theorem execute_workflow_error_parts (env : Env) (o : Orch) (st : WorkflowState)
    (m : String) (st1 : WorkflowState)
    (hrun : run_graph env st = Except.error (m, st1)) :
    (execute_workflow env o st).2 =
      { st1 with status := WorkflowStatus.failed, error_message := some m,
                 current_step := "error" } ∧
    dget (execute_workflow env o st).1.active st1.session_id = none ∧
    dget (execute_workflow env o st).1.store st1.session_id =
      some (WorkflowState.to_dict
        { st1 with status := WorkflowStatus.failed, error_message := some m,
                   current_step := "error" }) := by
  simp only [execute_workflow, hrun, store_workflow_state]
  by_cases hb : (dget o.active st1.session_id).isSome = true
  · rw [if_pos hb]
    have hcond : (dget (dset o.active st1.session_id
        ({ st1 with status := WorkflowStatus.failed, error_message := some m,
                    current_step := "error" } : WorkflowState)) st1.session_id).isSome
          = true := by
      rw [dget_dset_self]
      rfl
    rw [if_pos ⟨hcond, Or.inr trivial⟩]
    exact ⟨rfl, dget_ddel_self _ _, dget_dset_self _ _ _⟩
  · rw [if_neg hb]
    rw [if_neg (fun hc => hb hc.1)]
    exact ⟨rfl, Option.not_isSome_iff_eq_none.mp hb, dget_dset_self _ _ _⟩

/-- C7 amended: on the normal execution path the invariant holds — a
run started by `start_workflow` ends with a terminal status, is evicted
from the in-memory active set, and remains readable from the durable
store.  (On the regeneration path the code re-inserts the Completed run
into the active set and never evicts it; see the counterexample.) -/
theorem claim_C7_amended (env : Env) (o : Orch) (sid eid : String) (ed cp ui : Dict)
    (now : Nat) (q : Orch × WorkflowState)
    (hq : q = execute_workflow env (start_workflow o sid eid ed cp ui now).1
      (start_workflow o sid eid ed cp ui now).2) :
    (q.2.status = WorkflowStatus.completed ∨ q.2.status = WorkflowStatus.failed) ∧
    dget q.1.active sid = none ∧
    dget q.1.store sid = some (WorkflowState.to_dict q.2) := by
  cases hrun : run_graph env (initial_state sid eid ed cp ui now) with
  | ok fs =>
      have hparts := execute_workflow_ok_parts env
        (start_workflow o sid eid ed cp ui now).1 (initial_state sid eid ed cp ui now)
        fs hrun
      have hsess : fs.session_id = sid := run_graph_ok_session env _ fs hrun
      have hstart : (start_workflow o sid eid ed cp ui now).2 =
        initial_state sid eid ed cp ui now := rfl
      rw [hq, hstart]
      rw [hsess] at hparts
      exact ⟨Or.inl (by rw [hparts.1]), hparts.2.1, by rw [hparts.2.2, hparts.1]⟩
  | error e =>
      obtain ⟨m, st1⟩ := e
      have hparts := execute_workflow_error_parts env
        (start_workflow o sid eid ed cp ui now).1 (initial_state sid eid ed cp ui now)
        m st1 hrun
      have hsess : st1.session_id = sid := run_graph_error_session env _ m st1 hrun
      have hstart : (start_workflow o sid eid ed cp ui now).2 =
        initial_state sid eid ed cp ui now := rfl
      rw [hq, hstart]
      rw [hsess] at hparts
      exact ⟨Or.inr (by rw [hparts.1]), hparts.2.1, by rw [hparts.2.2, hparts.1]⟩

/-- C7 counterexample: regenerating content on a run that sits
Completed in the durable store leaves the run in the in-memory active
set with status Completed — the terminal run is not evicted on the
regeneration path, violating the invariant. -/
theorem claim_C7_counterexample :
    ((regenerate_content ⟨Except.ok [], Except.ok [], Except.ok [], Except.ok []⟩
        { active := [],
          store := [("s1", WorkflowState.to_dict
            { baseState with status := WorkflowStatus.completed })] }
        "s1" "e1" "flyer" []).2.map WorkflowState.status = some WorkflowStatus.completed) ∧
    ((dget (regenerate_content ⟨Except.ok [], Except.ok [], Except.ok [], Except.ok []⟩
        { active := [],
          store := [("s1", WorkflowState.to_dict
            { baseState with status := WorkflowStatus.completed })] }
        "s1" "e1" "flyer" []).1.active "s1").map WorkflowState.status =
      some WorkflowStatus.completed) := by
  exact ⟨rfl, rfl⟩

/-- The run executed for the C7 witness: valid inputs on a fresh
orchestrator. -/
def qW7 : Orch × WorkflowState :=
  execute_workflow ⟨Except.ok [], Except.ok [], Except.ok [], Except.ok []⟩
    (start_workflow { active := [], store := [] } "s7" "e7"
      [("title", "T"), ("description", "D"), ("start_date", "S")]
      [("flyer_style", "modern")] [] 0).1
    (start_workflow { active := [], store := [] } "s7" "e7"
      [("title", "T"), ("description", "D"), ("start_date", "S")]
      [("flyer_style", "modern")] [] 0).2

/-- C7 witness: the concrete run ends terminal and is evicted from the
active set. -/
theorem claim_C7_witness :
    (qW7.2.status = WorkflowStatus.completed ∨ qW7.2.status = WorkflowStatus.failed) ∧
    dget qW7.1.active "s7" = none := by
  have h := claim_C7_amended ⟨Except.ok [], Except.ok [], Except.ok [], Except.ok []⟩
    { active := [], store := [] } "s7" "e7"
    [("title", "T"), ("description", "D"), ("start_date", "S")]
    [("flyer_style", "modern")] [] 0 qW7 rfl
  exact ⟨h.1, h.2.1⟩

/-- C6: regeneration only rewrites artifact keys owned by the selected
steps — every other key keeps its exact value — and on completion the
returned state has status Completed and the synthetic
`"regenerated_<type>"` marker as its current step. -/
theorem claim_C6 (env : Env) (o : Orch) (sid eid rt : String) (cp : Dict)
    (st : WorkflowState) (hget : get_workflow_state o sid = some st)
    (k : String) (hk : k ∉ regen_owned_keys rt) :
    (regenerate_content env o sid eid rt cp).2.map
        (fun st' => (dget st'.generated_content k, st'.status, st'.current_step)) =
      some (dget st.generated_content k, WorkflowStatus.completed, "regenerated_" ++ rt) := by
  have hf : (rt = "flyer" ∨ rt = "all") → k ∉ flyer_keys := by
    intro hc hmem
    exact hk (by
      simp only [regen_owned_keys, List.mem_append, if_pos hc]
      exact Or.inl (Or.inl hmem))
  have hs : (rt = "social" ∨ rt = "all") → k ∉ social_keys := by
    intro hc hmem
    exact hk (by
      simp only [regen_owned_keys, List.mem_append, if_pos hc]
      exact Or.inl (Or.inr hmem))
  have hw : (rt = "whatsapp" ∨ rt = "all") → k ∉ whatsapp_keys := by
    intro hc hmem
    exact hk (by
      simp only [regen_owned_keys, List.mem_append, if_pos hc]
      exact Or.inr hmem)
  have e1 : ∀ s : WorkflowState,
      dget (if rt = "flyer" ∨ rt = "all" then create_flyer env s else s).generated_content k =
        dget s.generated_content k := by
    intro s
    by_cases c : rt = "flyer" ∨ rt = "all"
    · rw [if_pos c]
      exact (create_flyer_frame env s).2.2 k (hf c)
    · rw [if_neg c]
  have e2 : ∀ s : WorkflowState,
      dget (if rt = "social" ∨ rt = "all"
        then create_social_content env s else s).generated_content k =
        dget s.generated_content k := by
    intro s
    by_cases c : rt = "social" ∨ rt = "all"
    · rw [if_pos c]
      exact (create_social_content_frame env s).2.2 k (hs c)
    · rw [if_neg c]
  have e3 : ∀ s : WorkflowState,
      dget (if rt = "whatsapp" ∨ rt = "all"
        then create_whatsapp_message env s else s).generated_content k =
        dget s.generated_content k := by
    intro s
    by_cases c : rt = "whatsapp" ∨ rt = "all"
    · rw [if_pos c]
      exact (create_whatsapp_message_frame env s).2.2 k (hw c)
    · rw [if_neg c]
  simp only [regenerate_content, hget, Option.map_some']
  congr 1
  refine Prod.ext ?_ rfl
  show dget (_ : WorkflowState).generated_content k = dget st.generated_content k
  rw [e3, e2, e1]

/-- The stored run regenerated in the C6 witness. -/
def stW6 : WorkflowState :=
  { baseState with status := WorkflowStatus.completed,
                   generated_content := [("whatsapp_message", "hello"), ("flyer_url", "u")] }

/-- C6 witness: regenerating only the flyer preserves the WhatsApp
artifact byte-for-byte and completes with the regeneration marker. -/
theorem claim_C6_witness :
    (regenerate_content ⟨Except.ok [("flyer_url", "u2")], Except.ok [], Except.ok [],
        Except.ok []⟩
      { active := [("s1", stW6)], store := [] } "s1" "e1" "flyer" []).2.map
        (fun st' => (dget st'.generated_content "whatsapp_message", st'.status,
          st'.current_step)) =
      some (some "hello", WorkflowStatus.completed, "regenerated_flyer") := by
  have h := claim_C6 ⟨Except.ok [("flyer_url", "u2")], Except.ok [], Except.ok [],
      Except.ok []⟩
    { active := [("s1", stW6)], store := [] } "s1" "e1" "flyer" [] stW6 rfl
    "whatsapp_message" (by decide)
  rw [h]
  decide

/-- C9 counterexample: an out-of-band `update_workflow_progress` call
may overwrite `completed_steps` with a shorter non-empty list, dropping
the progress percentage (here from 25 to 12). -/
theorem claim_C9_counterexample :
    ({ baseState with completed_steps := ["validate_input", "create_flyer"] }
      : WorkflowState).calculate_progress = 25 ∧
    (dget (update_workflow_progress
        { active := [("s1",
            { baseState with completed_steps := ["validate_input", "create_flyer"] })],
          store := [] }
        "s1" "in_progress" "create_flyer" (some ["validate_input"]) none none none).active
        "s1").map WorkflowState.calculate_progress = some 12 ∧
    (12 : Nat) < 25 := by
  exact ⟨rfl, rfl, by decide⟩

/-- C9 amended: the progress percentage is non-decreasing under every
pipeline step (including a failing validation, whose carried state has
the same completed list) and under regeneration; only the out-of-band
`update_workflow_progress` entry point can decrease it, by overwriting
`completed_steps` with a shorter non-empty list. -/
theorem claim_C9_amended (env : Env) (o : Orch) (sid eid rt : String) (cp : Dict)
    (st : WorkflowState) :
    st.calculate_progress ≤ (create_flyer env st).calculate_progress ∧
    st.calculate_progress ≤ (create_social_content env st).calculate_progress ∧
    st.calculate_progress ≤ (create_whatsapp_message env st).calculate_progress ∧
    st.calculate_progress ≤ (setup_google_drive env st).calculate_progress ∧
    st.calculate_progress ≤ (create_calendar_event st).calculate_progress ∧
    st.calculate_progress ≤ (create_clickup_task st).calculate_progress ∧
    st.calculate_progress ≤ (finalize_workflow st).calculate_progress ∧
    (∀ m st1, validate_input st = Except.error (m, st1) →
      st1.calculate_progress = st.calculate_progress) ∧
    (∀ st1, validate_input st = Except.ok st1 →
      st.calculate_progress ≤ st1.calculate_progress) ∧
    (∀ st0 st', get_workflow_state o sid = some st0 →
      (regenerate_content env o sid eid rt cp).2 = some st' →
      st0.calculate_progress ≤ st'.calculate_progress) := by
  refine ⟨calculate_progress_mono (create_flyer_frame env st).2.1,
    calculate_progress_mono (create_social_content_frame env st).2.1,
    calculate_progress_mono (create_whatsapp_message_frame env st).2.1,
    calculate_progress_mono (setup_google_drive_frame env st).2,
    calculate_progress_mono (by simp [create_calendar_event]),
    calculate_progress_mono (by simp [create_clickup_task]),
    calculate_progress_mono (by simp [finalize_workflow]), ?_, ?_, ?_⟩
  · intro m st1 hv
    rw [validate_input_error_shape st m st1 hv]
    rfl
  · intro st1 hv
    refine calculate_progress_mono ?_
    rw [(validate_input_ok_shape st st1 hv).2.2.1]
    simp
  · intro st0 st' hget hr
    simp only [regenerate_content, hget, Option.some.injEq] at hr
    refine calculate_progress_mono ?_
    have l1 : ∀ s : WorkflowState, s.completed_steps.length ≤
        (if rt = "flyer" ∨ rt = "all"
          then create_flyer env s else s).completed_steps.length := by
      intro s
      by_cases c : rt = "flyer" ∨ rt = "all"
      · rw [if_pos c]
        exact (create_flyer_frame env s).2.1
      · rw [if_neg c]
    have l2 : ∀ s : WorkflowState, s.completed_steps.length ≤
        (if rt = "social" ∨ rt = "all"
          then create_social_content env s else s).completed_steps.length := by
      intro s
      by_cases c : rt = "social" ∨ rt = "all"
      · rw [if_pos c]
        exact (create_social_content_frame env s).2.1
      · rw [if_neg c]
    have l3 : ∀ s : WorkflowState, s.completed_steps.length ≤
        (if rt = "whatsapp" ∨ rt = "all"
          then create_whatsapp_message env s else s).completed_steps.length := by
      intro s
      by_cases c : rt = "whatsapp" ∨ rt = "all"
      · rw [if_pos c]
        exact (create_whatsapp_message_frame env s).2.1
      · rw [if_neg c]
    rw [← hr]
    exact le_trans (le_trans (l1 { st0 with
        content_preferences := dictUpdate st0.content_preferences cp,
        status := WorkflowStatus.in_progress }) (l2 _)) (l3 _)

/-- The state produced by `validate_input` on `baseState`, used by the
C9 witness. -/
def stW9v : WorkflowState :=
  { baseState with completed_steps := ["validate_input"],
                   messages := ["Input validation completed successfully."] }

/-- C9 witness: at a concrete state, a successful validation does not
decrease progress. -/
theorem claim_C9_witness :
    baseState.calculate_progress ≤ stW9v.calculate_progress := by
  have h := claim_C9_amended ⟨Except.ok [], Except.ok [], Except.ok [], Except.ok []⟩
    { active := [], store := [] } "s" "e" "flyer" [] baseState
  exact h.2.2.2.2.2.2.2.2.1 _ (by decide)

/-- C2 counterexample: when the Google Drive collaborator reports an
error, `_setup_google_drive` appends itself to `failed_steps` but
writes *no* error artifact at all — `generated_content` is unchanged
and in particular holds no `setup_google_drive_error` key, refuting the
claim that every failing non-first step records an
`<step>_error` artifact. -/
theorem claim_C2_counterexample :
    (setup_google_drive ⟨Except.ok [], Except.ok [], Except.ok [],
        Except.ok [("error", "Drive quota exceeded")]⟩ baseState).failed_steps =
      ["setup_google_drive"] ∧
    (setup_google_drive ⟨Except.ok [], Except.ok [], Except.ok [],
        Except.ok [("error", "Drive quota exceeded")]⟩ baseState).generated_content = [] ∧
    dget (setup_google_drive ⟨Except.ok [], Except.ok [], Except.ok [],
        Except.ok [("error", "Drive quota exceeded")]⟩ baseState).generated_content
      "setup_google_drive_error" = none := by
  exact ⟨rfl, rfl, rfl⟩

/-- C2 amended: every non-first step catches its own failure, appends
its name to `failed_steps`, and returns the state, so a run whose
validation succeeds still ends Completed whatever the collaborators
do.  However the error artifact is written under a step-specific key
rather than a literal `<step>_error` key, and only by the three
content steps: `create_flyer` writes `flyer_error` only when the
collaborator returns an error dict (an internal exception leaves
`generated_content` unchanged), `create_social_content` and
`create_whatsapp_message` write `social_media_error` /
`whatsapp_message_error` in each of their failure modes, and
`setup_google_drive` never writes any error artifact. -/
theorem claim_C2_amended (env : Env) (o : Orch) (st : WorkflowState) :
    (∀ st1, validate_input st = Except.ok st1 →
      (execute_workflow env o st).2.status = WorkflowStatus.completed) ∧
    (∀ r, env.flyer_result = Except.ok r → truthy (dget r "error") = true →
      "create_flyer" ∈ (create_flyer env st).failed_steps ∧
      dget (create_flyer env st).generated_content "flyer_error" =
        some ((dget r "error").getD "")) ∧
    (∀ e, env.flyer_result = Except.error e →
      "create_flyer" ∈ (create_flyer env st).failed_steps ∧
      (create_flyer env st).generated_content = st.generated_content) ∧
    (truthy (dget st.generated_content "flyer_url") = false →
      "create_social_content" ∈ (create_social_content env st).failed_steps ∧
      dget (create_social_content env st).generated_content "social_media_error" =
        some "Flyer URL missing, cannot generate social media captions.") ∧
    (∀ r, env.social_result = Except.ok r →
      truthy (dget st.generated_content "flyer_url") = true →
      truthy (dget r "social_media_error") = true →
      "create_social_content" ∈ (create_social_content env st).failed_steps ∧
      dget (create_social_content env st).generated_content "social_media_error" =
        some ((dget r "social_media_error").getD "")) ∧
    (∀ e, env.social_result = Except.error e →
      truthy (dget st.generated_content "flyer_url") = true →
      "create_social_content" ∈ (create_social_content env st).failed_steps ∧
      dget (create_social_content env st).generated_content "social_media_error" =
        some ("Social media caption generation error: " ++ e)) ∧
    (∀ r, env.whatsapp_result = Except.ok r → truthy (dget r "error") = true →
      "create_whatsapp_message" ∈ (create_whatsapp_message env st).failed_steps ∧
      dget (create_whatsapp_message env st).generated_content "whatsapp_message_error" =
        some ((dget r "error").getD "")) ∧
    (∀ e, env.whatsapp_result = Except.error e →
      "create_whatsapp_message" ∈ (create_whatsapp_message env st).failed_steps ∧
      dget (create_whatsapp_message env st).generated_content "whatsapp_message_error" =
        some ("WhatsApp message creation error: " ++ e)) ∧
    (∀ r, env.drive_result = Except.ok r → truthy (dget r "error") = true →
      "setup_google_drive" ∈ (setup_google_drive env st).failed_steps ∧
      (setup_google_drive env st).generated_content = st.generated_content) ∧
    (∀ e, env.drive_result = Except.error e →
      "setup_google_drive" ∈ (setup_google_drive env st).failed_steps ∧
      (setup_google_drive env st).generated_content = st.generated_content) := by
  refine ⟨?_, ?_, ?_, ?_, ?_, ?_, ?_, ?_, ?_, ?_⟩
  · intro st1 hv
    have h := execute_workflow_ok_parts env o st _ (run_graph_eq_ok env st st1 hv)
    rw [h.1]
  · intro r hr herr
    simp only [create_flyer, hr, herr, if_true]
    exact ⟨by simp, dget_dset_self _ _ _⟩
  · intro e he
    simp only [create_flyer, he]
    exact ⟨by simp, trivial⟩
  · intro hurl
    simp only [create_social_content, hurl, Bool.false_eq_true, not_false_iff, if_pos]
    exact ⟨by simp, dget_dset_self _ _ _⟩
  · intro r hr hurl herr
    simp only [create_social_content, hurl, hr, herr, not_true, if_false, if_true,
      Bool.true_eq_false, ite_false]
    exact ⟨by simp, dget_dset_self _ _ _⟩
  · intro e he hurl
    simp only [create_social_content, hurl, he, not_true, if_false, Bool.true_eq_false,
      ite_false]
    exact ⟨by simp, dget_dset_self _ _ _⟩
  · intro r hr herr
    simp only [create_whatsapp_message, hr, herr, if_true]
    exact ⟨by simp, dget_dset_self _ _ _⟩
  · intro e he
    simp only [create_whatsapp_message, he]
    exact ⟨by simp, dget_dset_self _ _ _⟩
  · intro r hr herr
    simp only [setup_google_drive, hr, herr, if_true]
    exact ⟨by simp, trivial⟩
  · intro e he
    simp only [setup_google_drive, he]
    exact ⟨by simp, trivial⟩

/-- C2 witness: with a raising Drive collaborator, the concrete valid
run still completes, and the drive step is recorded in `failed_steps`
with the artifact mapping untouched. -/
theorem claim_C2_witness :
    (execute_workflow ⟨Except.ok [], Except.ok [], Except.ok [], Except.error "boom"⟩
        { active := [], store := [] } baseState).2.status = WorkflowStatus.completed ∧
    "setup_google_drive" ∈
      (setup_google_drive ⟨Except.ok [], Except.ok [], Except.ok [], Except.error "boom"⟩
        baseState).failed_steps := by
  have h := claim_C2_amended ⟨Except.ok [], Except.ok [], Except.ok [], Except.error "boom"⟩
    { active := [], store := [] } baseState
  exact ⟨h.1 stW9v (by decide), (h.2.2.2.2.2.2.2.2.2 "boom" rfl).1⟩

end EventHub
